import Mathlib

/-!
Verification development for the multi-agent code-generation pipeline
(workflow FSM, dispatchers, response validation, cost optimizer, security
scanner).  Python sources are shallowly embedded: dictionaries become
association lists, regular-expression searches over fixed patterns become
hand-compiled decidable matchers over character lists, floats become
rationals, and exceptions become explicit outcome flags.
-/

namespace CodeGen

/-! ## Character/string primitives shared by the optimizer and the scanner -/

/-- Python whitespace class (`\s`, and the separator set of `str.split()`):
space, tab, newline, carriage return, vertical tab, form feed. -/
def isPySpace (c : Char) : Bool :=
  c = ' ' || c = '\t' || c = '\n' || c = '\r' || c = '\x0b' || c = '\x0c'

/-- ASCII lower-casing of one character, modelling `str.lower()` /
`re.IGNORECASE` normalisation on the ASCII snippets involved. -/
def lowerChar (c : Char) : Char :=
  if 'A' ≤ c ∧ c ≤ 'Z' then Char.ofNat (c.toNat + 32) else c

/-- `str.lower()` over a character list. -/
def lowerL (s : List Char) : List Char := s.map lowerChar

/-- Whether `p` is an initial segment of `s` (Boolean, executable). -/
def startsWithL : List Char → List Char → Bool
  | [], _ => true
  | _ :: _, [] => false
  | p :: ps, c :: cs => p = c && startsWithL ps cs

/-- `p` occurs as a contiguous substring of `s` (Python's `p in s`). -/
def containsSub (p : List Char) : List Char → Bool
  | [] => startsWithL p []
  | c :: cs => startsWithL p (c :: cs) || containsSub p cs

/-- Word-count helper: `inWord` records whether the previous character was
part of a word.  Counts the maximal non-whitespace runs, i.e.
`len(s.split())`. -/
def wcAux : List Char → Bool → Nat
  | [], _ => 0
  | c :: r, inWord =>
    if isPySpace c then wcAux r false
    else (if inWord then 0 else 1) + wcAux r true

/-- `len(content.split())` of Python. -/
def wordCount (s : List Char) : Nat := wcAux s false

/-! Basic lemmas about the primitives. -/

theorem lowerL_append (a b : List Char) : lowerL (a ++ b) = lowerL a ++ lowerL b :=
  List.map_append lowerChar a b

theorem startsWithL_append {p s : List Char} (t : List Char)
    (h : startsWithL p s = true) : startsWithL p (s ++ t) = true := by
  induction p generalizing s with
  | nil => simp [startsWithL]
  | cons x xs ih =>
    cases s with
    | nil => simp [startsWithL] at h
    | cons c cs =>
      simp only [startsWithL, Bool.and_eq_true] at h ⊢
      exact ⟨h.1, ih h.2⟩

theorem containsSub_append_right {p s : List Char} (t : List Char)
    (h : containsSub p s = true) : containsSub p (s ++ t) = true := by
  induction s with
  | nil =>
    cases p with
    | nil =>
      cases t with
      | nil => simpa [containsSub] using h
      | cons c cs => simp [containsSub, startsWithL]
    | cons x xs => simp [containsSub, startsWithL] at h
  | cons c cs ih =>
    simp only [containsSub, Bool.or_eq_true, List.cons_append] at h ⊢
    rcases h with h | h
    · exact Or.inl (startsWithL_append t h)
    · exact Or.inr (ih h)

theorem wcAux_append_le (a b : List Char) (f : Bool) :
    wcAux a f ≤ wcAux (a ++ b) f := by
  induction a generalizing f with
  | nil => simp [wcAux]
  | cons c cs ih =>
    simp only [wcAux, List.cons_append]
    by_cases h : isPySpace c = true
    · simpa [h] using ih false
    · simp only [h]
      exact Nat.add_le_add_left (ih true) _

theorem wordCount_append_le (a b : List Char) :
    wordCount a ≤ wordCount (a ++ b) := wcAux_append_le a b false

/-! ## Cost optimizer (`src/src/cost/optimizer.py`, `IntelligentCostOptimizer`) -/

/-- `code_indicators` of `analyze_request_complexity`. -/
def code_indicators : List (List Char) :=
  ["algorithm".data, "optimization".data, "parallel".data, "distributed".data,
   "machine learning".data, "neural network".data, "cryptography".data]

/-- `domain_indicators` of `analyze_request_complexity`. -/
def domain_indicators : List (List Char) :=
  ["financial".data, "trading".data, "medical".data, "legal".data,
   "compliance".data, "real-time".data, "high-frequency".data,
   "mission-critical".data]

/-- `security_indicators` of `analyze_request_complexity`. -/
def security_indicators : List (List Char) :=
  ["security".data, "authentication".data, "encryption".data,
   "authorization".data, "vulnerability".data, "penetration".data,
   "compliance".data]

/-- `performance_indicators` of `analyze_request_complexity`. -/
def performance_indicators : List (List Char) :=
  ["performance".data, "optimization".data, "latency".data, "throughput".data,
   "scalability".data, "concurrent".data, "real-time".data]

/-- `sum(1 for indicator in indicators if indicator in content.lower())`. -/
def countIndicators (inds : List (List Char)) (content : List Char) : Nat :=
  (inds.filter (fun i => containsSub i (lowerL content))).length

/-- `token_estimate = len(content.split()) * 1.3` (floats as rationals);
`content` is the serialized request (`json.dumps(request)`, the
serialization itself being external input to the optimizer). -/
def tokenEstimate (content : List Char) : ℚ :=
  (wordCount content : ℚ) * (13 / 10)

/-- `factors["token_count"] = min(token_estimate / 1000, 1.0)`. -/
def tokenFactor (content : List Char) : ℚ :=
  min (tokenEstimate content / 1000) 1

/-- `factors["code_complexity"] = min(code_complexity / 3, 1.0)`. -/
def codeFactor (content : List Char) : ℚ :=
  min ((countIndicators code_indicators content : ℚ) / 3) 1

/-- `factors["domain_complexity"] = min(domain_complexity / 2, 1.0)`. -/
def domainFactor (content : List Char) : ℚ :=
  min ((countIndicators domain_indicators content : ℚ) / 2) 1

/-- `factors["security_requirements"] = min(security_complexity / 2, 1.0)`. -/
def securityFactor (content : List Char) : ℚ :=
  min ((countIndicators security_indicators content : ℚ) / 2) 1

/-- `factors["performance_requirements"] = min(performance_complexity / 2, 1.0)`. -/
def performanceFactor (content : List Char) : ℚ :=
  min ((countIndicators performance_indicators content : ℚ) / 2) 1

/-- `complexity_score = sum(factors[k] * weights[k] for k in factors)` with
the weight table of `analyze_request_complexity`. -/
def complexityScore (content : List Char) : ℚ :=
  tokenFactor content * (15 / 100) +
  codeFactor content * (25 / 100) +
  domainFactor content * (25 / 100) +
  securityFactor content * (20 / 100) +
  performanceFactor content * (15 / 100)

/-- The tier-threshold chain at the end of `analyze_request_complexity`. -/
def recommendedTier (content : List Char) : String :=
  if complexityScore content < 3 / 10 then "local"
  else if complexityScore content < 5 / 10 then "economic"
  else if complexityScore content < 7 / 10 then "standard"
  else "high_performance"

/-- The `tier_downgrades` dictionary of `route_request`, applied via
`.get(selected_tier, "local")`. -/
def tier_downgrades : List (String × String) :=
  [("high_performance", "standard"), ("standard", "economic"),
   ("economic", "local"), ("local", "local")]

/-- `tier_downgrades.get(selected_tier, "local")`. -/
def downgradeTier (t : String) : String :=
  ((tier_downgrades.lookup t).getD "local")

/-- Modelled from the spec: clamping a raw factor to the interval `[0,1]`
("five factors each clamped to [0,1]").  Used only to compare the spec's
description of the score with the code's definition. -/
def clamp01 (x : ℚ) : ℚ := max 0 (min x 1)

theorem clamp01_of_nonneg {x : ℚ} (h : 0 ≤ x) : clamp01 x = min x 1 :=
  max_eq_right (le_min h zero_le_one)

theorem countIndicators_append_le (inds : List (List Char)) (s t : List Char) :
    countIndicators inds s ≤ countIndicators inds (s ++ t) := by
  unfold countIndicators
  rw [← List.countP_eq_length_filter, ← List.countP_eq_length_filter]
  apply List.countP_mono_left
  intro i _ h
  rw [lowerL_append]
  exact containsSub_append_right _ (by simpa using h)

theorem tokenFactor_append_le (s t : List Char) :
    tokenFactor s ≤ tokenFactor (s ++ t) := by
  unfold tokenFactor tokenEstimate
  refine min_le_min ?_ le_rfl
  have h : (wordCount s : ℚ) ≤ (wordCount (s ++ t) : ℚ) :=
    Nat.cast_le.mpr (wordCount_append_le s t)
  have h2 : (wordCount s : ℚ) * (13 / 10) ≤ (wordCount (s ++ t) : ℚ) * (13 / 10) :=
    mul_le_mul_of_nonneg_right h (by norm_num)
  exact (div_le_div_iff_of_pos_right (by norm_num)).mpr h2

theorem countFactor_append_le (inds : List (List Char)) (d : ℚ) (hd : 0 < d)
    (s t : List Char) :
    min ((countIndicators inds s : ℚ) / d) 1
      ≤ min ((countIndicators inds (s ++ t) : ℚ) / d) 1 := by
  refine min_le_min ?_ le_rfl
  exact (div_le_div_iff_of_pos_right hd).mpr
    (Nat.cast_le.mpr (countIndicators_append_le inds s t))

theorem complexityScore_append_le (s t : List Char) :
    complexityScore s ≤ complexityScore (s ++ t) := by
  unfold complexityScore
  have h1 := tokenFactor_append_le s t
  have h2 := countFactor_append_le code_indicators 3 (by norm_num) s t
  have h3 := countFactor_append_le domain_indicators 2 (by norm_num) s t
  have h4 := countFactor_append_le security_indicators 2 (by norm_num) s t
  have h5 := countFactor_append_le performance_indicators 2 (by norm_num) s t
  unfold codeFactor domainFactor securityFactor performanceFactor
  gcongr

theorem tokenFactor_nonneg (s : List Char) : 0 ≤ tokenFactor s := by
  unfold tokenFactor tokenEstimate
  exact le_min (by positivity) zero_le_one

theorem countFactor_nonneg (inds : List (List Char)) (d : ℚ) (hd : 0 < d)
    (s : List Char) : 0 ≤ min ((countIndicators inds s : ℚ) / d) 1 :=
  le_min (by positivity) zero_le_one

/-- C6: the complexity score is the weighted sum of the five factors, each
being the clamp to `[0,1]` of its raw density (token volume weighted 0.15,
code keywords 0.25, domain keywords 0.25, security keywords 0.20,
performance keywords 0.15), each factor lies in `[0,1]`, and the
recommended tier follows the thresholds 0.3 / 0.5 / 0.7. -/
theorem c6_complexity_score_formula (content : List Char) :
    complexityScore content =
      clamp01 (tokenEstimate content / 1000) * (15 / 100)
      + clamp01 ((countIndicators code_indicators content : ℚ) / 3) * (25 / 100)
      + clamp01 ((countIndicators domain_indicators content : ℚ) / 2) * (25 / 100)
      + clamp01 ((countIndicators security_indicators content : ℚ) / 2) * (20 / 100)
      + clamp01 ((countIndicators performance_indicators content : ℚ) / 2) * (15 / 100)
    ∧ (0 ≤ tokenFactor content ∧ tokenFactor content ≤ 1)
    ∧ (0 ≤ codeFactor content ∧ codeFactor content ≤ 1)
    ∧ (0 ≤ domainFactor content ∧ domainFactor content ≤ 1)
    ∧ (0 ≤ securityFactor content ∧ securityFactor content ≤ 1)
    ∧ (0 ≤ performanceFactor content ∧ performanceFactor content ≤ 1)
    ∧ recommendedTier content =
        (if complexityScore content < 3 / 10 then "local"
         else if complexityScore content < 5 / 10 then "economic"
         else if complexityScore content < 7 / 10 then "standard"
         else "high_performance") := by
  refine ⟨?_, ⟨tokenFactor_nonneg content, min_le_right _ _⟩,
    ⟨countFactor_nonneg _ 3 (by norm_num) content, min_le_right _ _⟩,
    ⟨countFactor_nonneg _ 2 (by norm_num) content, min_le_right _ _⟩,
    ⟨countFactor_nonneg _ 2 (by norm_num) content, min_le_right _ _⟩,
    ⟨countFactor_nonneg _ 2 (by norm_num) content, min_le_right _ _⟩, rfl⟩
  unfold complexityScore tokenFactor codeFactor domainFactor securityFactor
    performanceFactor
  rw [clamp01_of_nonneg (by unfold tokenEstimate; positivity),
    clamp01_of_nonneg (by positivity), clamp01_of_nonneg (by positivity),
    clamp01_of_nonneg (by positivity), clamp01_of_nonneg (by positivity)]

/-- C7: the budget-downgrade map steps one tier down the chain
high_performance → standard → economic → local, and iterating it any
number of times from `local` stays at `local`. -/
theorem c7_downgrade_chain :
    downgradeTier "high_performance" = "standard"
    ∧ downgradeTier "standard" = "economic"
    ∧ downgradeTier "economic" = "local"
    ∧ downgradeTier "local" = "local"
    ∧ ∀ n : ℕ, downgradeTier^[n] "local" = "local" := by
  refine ⟨rfl, rfl, rfl, rfl, ?_⟩
  intro n
  induction n with
  | zero => rfl
  | succ k ih => rw [Function.iterate_succ_apply', ih]; rfl

/-- C8: appending an extension that carries a further occurrence of a
domain-sensitivity keyword never decreases the domain factor, and never
decreases the overall complexity score. -/
theorem c8_complexity_monotone (content ext kw : List Char)
    (hkw : kw ∈ domain_indicators)
    (hocc : containsSub kw (lowerL ext) = true) :
    domainFactor content ≤ domainFactor (content ++ ext)
    ∧ complexityScore content ≤ complexityScore (content ++ ext) :=
  ⟨countFactor_append_le domain_indicators 2 (by norm_num) content ext,
   complexityScore_append_le content ext⟩

/-- Witness for C8 at a concrete payload: appending `" financial"` to
`"pay"`. -/
theorem c8_complexity_monotone_witness :
    ("financial".data ∈ domain_indicators)
    ∧ containsSub "financial".data (lowerL " financial".data) = true
    ∧ (domainFactor "pay".data ≤ domainFactor ("pay".data ++ " financial".data)
       ∧ complexityScore "pay".data
           ≤ complexityScore ("pay".data ++ " financial".data)) :=
  ⟨by decide, by decide,
   c8_complexity_monotone "pay".data " financial".data "financial".data
     (by decide) (by decide)⟩

/-! ## Security scanner (`src/security-executor-py.py`)

The fixed regular expressions of `CodeSecurityScanner` are hand-compiled
into decidable matchers over character lists.  All of them are applied
with `re.IGNORECASE`, which we model by matching lower-case literals
against the lower-cased text. -/

/-- Strip an exact literal from the front of `s`, returning the rest. -/
def chopLit : List Char → List Char → Option (List Char)
  | [], s => some s
  | _ :: _, [] => none
  | p :: ps, c :: cs => if p = c then chopLit ps cs else none

/-- Does `p` hold on some suffix of `s` (i.e. a match starting at some
position — the semantics of `re.search`)? -/
def anySuffix (p : List Char → Bool) : List Char → Bool
  | [] => p []
  | c :: cs => p (c :: cs) || anySuffix p cs

/-- Anchored match of `lit1` then `\s*` then `lit2` (the second literal of
every such pattern starts with a non-space character, so the greedy
whitespace skip is exact). -/
def headLWL (lit1 lit2 : List Char) (s : List Char) : Bool :=
  match chopLit lit1 s with
  | none => false
  | some rest => startsWithL lit2 (rest.dropWhile isPySpace)

/-- `re.search` of `lit1\s*lit2`. -/
def matchLWL (lit1 lit2 : List Char) (s : List Char) : Bool :=
  anySuffix (headLWL lit1 lit2) s

/-- `\w` of Python's `re` on ASCII text. -/
def isWordChar (c : Char) : Bool :=
  ('a' ≤ c && c ≤ 'z') || ('A' ≤ c && c ≤ 'Z') || ('0' ≤ c && c ≤ '9') || c = '_'

/-- Maximal runs of word characters, in order. -/
def runsAux : List Char → List Char → List (List Char)
  | [], acc => if acc.isEmpty then [] else [acc.reverse]
  | c :: r, acc =>
    if isWordChar c then runsAux r (c :: acc)
    else if acc.isEmpty then runsAux r []
    else acc.reverse :: runsAux r []

def wordRuns (s : List Char) : List (List Char) := runsAux s []

/-- `re.search(r"\b__\w+__\b", s)`: the boundary anchors force the match
to cover a whole maximal word run, so the pattern matches exactly when
some maximal word run has length ≥ 5 and starts and ends with `__`. -/
def dunderMatch (s : List Char) : Bool :=
  (wordRuns s).any (fun r =>
    decide (5 ≤ r.length) && startsWithL ['_', '_'] r
      && startsWithL ['_', '_'] r.reverse)

/-- The `dangerous_patterns` table of `CodeSecurityScanner.__init__`:
each entry is the compiled matcher plus its violation message. -/
def dangerous_patterns : List ((List Char → Bool) × String) :=
  [(matchLWL "eval".data "(".data, "Use of eval() detected"),
   (matchLWL "exec".data "(".data, "Use of exec() detected"),
   (matchLWL "__import__".data "(".data, "Dynamic import detected"),
   (fun s => containsSub "subprocess.".data s, "Subprocess usage detected"),
   (fun s => containsSub "os.system".data s, "OS command execution detected"),
   (matchLWL "open".data "(".data, "File operation detected"),
   (matchLWL "compile".data "(".data, "Dynamic code compilation detected"),
   (matchLWL "globals".data "()".data, "Global scope access detected"),
   (matchLWL "locals".data "()".data, "Local scope access detected"),
   (dunderMatch, "Dunder method usage detected")]

/-- Both quote characters admitted by `['\"]` (codes 39 and 34). -/
def isQuote (c : Char) : Bool := c.toNat = 39 || c.toNat = 34

/-- Anchored match of `['\"][^'\"]+['\"]` (opening quote, at least one
non-quote character, then either quote again). -/
def quotedValue (s : List Char) : Bool :=
  match s with
  | [] => false
  | q :: rest =>
    isQuote q && !(rest.takeWhile (fun c => !isQuote c)).isEmpty
      && !(rest.dropWhile (fun c => !isQuote c)).isEmpty

/-- Anchored match of one of `keys`, then `\s*[:=]`, and when `quoteReq`
also `\s*` and a quoted value — the common shape of the secret patterns. -/
def headKeyAssign (quoteReq : Bool) (keys : List (List Char)) (s : List Char) : Bool :=
  keys.any (fun k =>
    match chopLit k s with
    | none => false
    | some r1 =>
      match r1.dropWhile isPySpace with
      | [] => false
      | c :: r3 =>
        (c = ':' || c = '=')
          && (!quoteReq || quotedValue (r3.dropWhile isPySpace)))

def matchKeyAssign (quoteReq : Bool) (keys : List (List Char)) (s : List Char) : Bool :=
  anySuffix (headKeyAssign quoteReq keys) s

/-- The expansions of `[_-]?` used inside the secret patterns. -/
def sepOpts : List (List Char) := [['_'], ['-'], []]

/-- Alternatives of `(api[_-]?key|apikey)`. -/
def apiKeyAlts : List (List Char) :=
  (sepOpts.map (fun a => "api".data ++ a ++ "key".data)) ++ ["apikey".data]

/-- Alternatives of `(password|passwd|pwd)`. -/
def passwordAlts : List (List Char) := ["password".data, "passwd".data, "pwd".data]

/-- Alternatives of `(secret|token)`. -/
def secretAlts : List (List Char) := ["secret".data, "token".data]

/-- Alternatives of `aws[_-]?access[_-]?key[_-]?id`. -/
def awsAccessAlts : List (List Char) :=
  sepOpts.foldr (fun a acc =>
    sepOpts.foldr (fun b acc2 =>
      sepOpts.foldr (fun c acc3 =>
        ("aws".data ++ a ++ "access".data ++ b ++ "key".data ++ c ++ "id".data) :: acc3)
        acc2) acc) []

/-- Alternatives of `aws[_-]?secret[_-]?access[_-]?key`. -/
def awsSecretAlts : List (List Char) :=
  sepOpts.foldr (fun a acc =>
    sepOpts.foldr (fun b acc2 =>
      sepOpts.foldr (fun c acc3 =>
        ("aws".data ++ a ++ "secret".data ++ b ++ "access".data ++ c ++ "key".data) :: acc3)
        acc2) acc) []

/-- The `secret_patterns` table of `CodeSecurityScanner.__init__`. -/
def secret_patterns : List ((List Char → Bool) × String) :=
  [(matchKeyAssign true apiKeyAlts, "Hardcoded API key detected"),
   (matchKeyAssign true passwordAlts, "Hardcoded password detected"),
   (matchKeyAssign true secretAlts, "Hardcoded secret detected"),
   (matchKeyAssign false awsAccessAlts, "AWS credentials detected"),
   (matchKeyAssign false awsSecretAlts, "AWS secret key detected")]

/-- The `network_patterns` table inside `scan_code` (warnings only). -/
def network_patterns : List ((List Char → Bool) × String) :=
  [(fun s => containsSub "urllib".data s || containsSub "requests".data s
      || containsSub "http.client".data s || containsSub "socket".data s,
    "Network operation detected"),
   (fun s => containsSub "urlopen".data s || containsSub "urlretrieve".data s,
    "URL access detected")]

/-- The `dangerous_imports` set of `CodeSecurityScanner.__init__`. -/
def dangerous_imports : List String :=
  ["os", "subprocess", "sys", "eval", "exec", "compile", "__import__",
   "importlib", "open", "file", "input", "raw_input", "execfile", "reload",
   "globals", "locals", "vars", "dir", "getattr", "setattr", "delattr"]

/-- One node of the walked Python AST, carrying exactly the data
`_analyze_ast` inspects (`ast.Import` aliases, `ast.ImportFrom` module,
`ast.Call` with an `ast.Name` callee, `ast.Attribute` attr); every other
node kind is `otherNode`. -/
inductive AstNode where
  | importNode (names : List String)
  | importFrom (module : Option String)
  | callName (id : String)
  | callOther
  | attributeNode (attr : String)
  | otherNode
deriving DecidableEq

/-- `CodeSecurityScanner._analyze_ast`, over the walk order of the tree. -/
def analyze_ast (nodes : List AstNode) : List String :=
  (nodes.map (fun n =>
    match n with
    | .importNode names =>
      (names.filter (fun nm => nm ∈ dangerous_imports)).map
        (fun nm => "Dangerous import: " ++ nm)
    | .importFrom md =>
      match md with
      | some m => if m ∈ dangerous_imports then ["Dangerous import from: " ++ m] else []
      | none => []
    | .callName id =>
      if id ∈ (["eval", "exec", "compile", "__import__"] : List String) then
        ["Dangerous function call: " ++ id]
      else []
    | .callOther => []
    | .attributeNode a =>
      if a.startsWith "_" && !a.startsWith "__" then
        ["Private attribute access: " ++ a]
      else []
    | .otherNode => [])).flatten

/-- A Python snippet as the scanner sees it: raw text plus the outcome of
`ast.parse` (`none` models a `SyntaxError`; the Python parser itself is
external to the scanner).  The node list is the walk order of the tree. -/
structure PyCode where
  text : List Char
  ast : Option (List AstNode)
deriving DecidableEq

/-- `SecurityScanResult` (the wall-clock `scan_time` field is not
modelled). -/
structure SecurityScanResult where
  safe : Bool
  risk_level : String
  violations : List String
  warnings : List String
deriving DecidableEq, Repr

/-- `"eval" in v or "exec" in v or "subprocess" in v` (case-sensitive,
applied to violation messages). -/
def mentionsDyn (v : String) : Bool :=
  containsSub "eval".data v.data || containsSub "exec".data v.data
    || containsSub "subprocess".data v.data

/-- Violation messages collected by the `dangerous_patterns` loop. -/
def patternHits (lc : List Char) : List String :=
  (dangerous_patterns.filter (fun pm => pm.1 lc)).map (fun pm => pm.2)

/-- Violation messages collected by the `secret_patterns` loop. -/
def secretHits (lc : List Char) : List String :=
  (secret_patterns.filter (fun pm => pm.1 lc)).map (fun pm => pm.2)

/-- Warning messages collected by the `network_patterns` loop. -/
def networkHits (lc : List Char) : List String :=
  (network_patterns.filter (fun pm => pm.1 lc)).map (fun pm => pm.2)

/-- The risk-level determination at the end of `scan_code`. -/
def riskOf (violations : List String) : String :=
  if violations.isEmpty then "low"
  else if violations.any mentionsDyn then "high"
  else if 3 < violations.length then "high"
  else "medium"

/-- The violations list accumulated by `scan_code` after a successful
parse: AST analysis, then the dangerous-pattern loop, then the secret
loop. -/
def allViolations (nodes : List AstNode) (lc : List Char) : List String :=
  analyze_ast nodes ++ patternHits lc ++ secretHits lc

/-- `CodeSecurityScanner.scan_code` for `language = "python"`: AST
analysis (with the `SyntaxError` early return), then the pattern, secret
and network loops, then the risk level and safe flag
(`safe = risk_level == "low" and len(violations) == 0`). -/
def scan_code (code : PyCode) : SecurityScanResult :=
  match code.ast with
  | none => ⟨false, "high", ["Syntax error"], []⟩
  | some nodes =>
    ⟨(riskOf (allViolations nodes (lowerL code.text)) == "low")
        && (allViolations nodes (lowerL code.text)).isEmpty,
      riskOf (allViolations nodes (lowerL code.text)),
      allViolations nodes (lowerL code.text),
      networkHits (lowerL code.text)⟩

/-- The `ExecutionResult` produced when the gate refuses to run the code
(`execution_time`/`memory_used` not modelled). -/
structure ExecGateResult where
  success : Bool
  output : String
  error : Option String
  security_scan : SecurityScanResult
deriving DecidableEq

/-- Outcome of the security gate of `execute_code`: either the call is
refused with a failed result, or execution proceeds (Docker or the local
restricted fallback, both external effects). -/
inductive ExecDecision where
  | blocked (r : ExecGateResult)
  | attempted (scan : SecurityScanResult)
deriving DecidableEq

/-- The gate at the head of `SecureCodeExecutor.execute_code`:
`if not security_scan.safe and security_scan.risk_level == "high"`. -/
def execute_code_gate (code : PyCode) : ExecDecision :=
  let scan := scan_code code
  if !scan.safe && scan.risk_level == "high" then
    .blocked ⟨false, "",
      some ("Code failed security scan: " ++ String.intercalate ", " scan.violations),
      scan⟩
  else .attempted scan

/-! Sample snippets used as concrete witnesses/counterexamples for the
scanner and the gate. -/

/-- `eval(x)` with its walked AST. -/
def evalPyCode : PyCode :=
  ⟨"eval(x)".data, some [.otherNode, .callName "eval", .otherNode]⟩

/-- `print(42)` with its walked AST. -/
def cleanPyCode : PyCode :=
  ⟨"print(42)".data, some [.otherNode, .callName "print", .otherNode]⟩

/-- `open(f)` with its walked AST: one violation ("File operation
detected"), none of which mention eval/exec/subprocess. -/
def openPyCode : PyCode :=
  ⟨"open(f)".data, some [.otherNode, .callName "open", .otherNode]⟩

/-! Risk-level lemmas. -/

theorem riskOf_high_of (vs : List String)
    (h : vs.any mentionsDyn = true ∨ 3 < vs.length) : riskOf vs = "high" := by
  have hne : vs.isEmpty = false := by
    cases vs with
    | nil =>
      rcases h with h | h
      · simp [List.any] at h
      · simp at h
    | cons a l => rfl
  unfold riskOf
  rw [hne]
  rcases h with h | h
  · simp [h]
  · by_cases ha : vs.any mentionsDyn = true
    · simp [ha]
    · simp [ha, h]

theorem riskOf_med_or_high (vs : List String) (hne : vs ≠ []) :
    riskOf vs = "medium" ∨ riskOf vs = "high" := by
  have hne2 : vs.isEmpty = false := by
    cases vs with
    | nil => exact absurd rfl hne
    | cons a l => rfl
  unfold riskOf
  rw [hne2]
  by_cases ha : vs.any mentionsDyn = true
  · simp [ha]
  · by_cases hl : 3 < vs.length
    · simp [ha, hl]
    · simp [ha, hl]

theorem scan_code_some (code : PyCode) (nodes : List AstNode)
    (h : code.ast = some nodes) :
    scan_code code =
      ⟨(riskOf (allViolations nodes (lowerL code.text)) == "low")
          && (allViolations nodes (lowerL code.text)).isEmpty,
        riskOf (allViolations nodes (lowerL code.text)),
        allViolations nodes (lowerL code.text),
        networkHits (lowerL code.text)⟩ := by
  unfold scan_code
  rw [h]

/-- C4: (i) a snippet whose text matches the dynamic-evaluation pattern
`eval\s*\(` is classified non-safe with risk at least medium; (ii) the
risk level escalates to high whenever some violation mentions
eval/exec/subprocess or the violation count exceeds 3; (iii) a parseable
snippet with no denylisted constructs (no AST violations, no dangerous
pattern) and no secret-like patterns is classified safe, risk low, with an
empty violations list. -/
theorem c4_security_scan (code : PyCode) :
    (matchLWL "eval".data "(".data (lowerL code.text) = true →
      (scan_code code).safe = false
        ∧ ((scan_code code).risk_level = "medium"
            ∨ (scan_code code).risk_level = "high"))
    ∧ (((scan_code code).violations.any mentionsDyn = true
          ∨ 3 < (scan_code code).violations.length) →
        (scan_code code).risk_level = "high")
    ∧ (∀ nodes, code.ast = some nodes → analyze_ast nodes = [] →
        (∀ pm ∈ dangerous_patterns, pm.1 (lowerL code.text) = false) →
        (∀ pm ∈ secret_patterns, pm.1 (lowerL code.text) = false) →
        (scan_code code).safe = true ∧ (scan_code code).risk_level = "low"
          ∧ (scan_code code).violations = []) := by
  refine ⟨?_, ?_, ?_⟩
  · intro hmatch
    cases hast : code.ast with
    | none => simp [scan_code, hast]
    | some nodes =>
      have hpair : (matchLWL "eval".data "(".data, "Use of eval() detected")
          ∈ dangerous_patterns := by
        unfold dangerous_patterns
        exact List.mem_cons_self _ _
      have hhit : "Use of eval() detected" ∈ patternHits (lowerL code.text) :=
        List.mem_map.mpr ⟨_, List.mem_filter.mpr ⟨hpair, hmatch⟩, rfl⟩
      have hmem : "Use of eval() detected"
          ∈ allViolations nodes (lowerL code.text) :=
        List.mem_append_left _ (List.mem_append_right _ hhit)
      have hne : allViolations nodes (lowerL code.text) ≠ [] :=
        List.ne_nil_of_mem hmem
      have hne2 : (allViolations nodes (lowerL code.text)).isEmpty = false := by
        cases hv : allViolations nodes (lowerL code.text) with
        | nil => exact absurd hv hne
        | cons a l => rfl
      rw [scan_code_some code nodes hast]
      refine ⟨by simp [hne2], riskOf_med_or_high _ hne⟩
  · intro hesc
    cases hast : code.ast with
    | none => simp [scan_code, hast]
    | some nodes =>
      rw [scan_code_some code nodes hast] at hesc ⊢
      exact riskOf_high_of _ hesc
  · intro nodes hast hAst hPat hSec
    have hp : patternHits (lowerL code.text) = [] := by
      unfold patternHits
      rw [List.filter_eq_nil_iff.mpr (by intro pm hm; simp [hPat pm hm])]
      rfl
    have hs : secretHits (lowerL code.text) = [] := by
      unfold secretHits
      rw [List.filter_eq_nil_iff.mpr (by intro pm hm; simp [hSec pm hm])]
      rfl
    have hv : allViolations nodes (lowerL code.text) = [] := by
      unfold allViolations
      rw [hAst, hp, hs]
      rfl
    rw [scan_code_some code nodes hast]
    simp [hv, riskOf]

/-- Witness for C4 at concrete snippets: `eval(x)` trips clause (i) and
(via its violations) clause (ii); `print(42)` satisfies clause (iii). -/
theorem c4_security_scan_witness :
    (matchLWL "eval".data "(".data (lowerL evalPyCode.text) = true
      ∧ ((scan_code evalPyCode).safe = false
          ∧ ((scan_code evalPyCode).risk_level = "medium"
              ∨ (scan_code evalPyCode).risk_level = "high")))
    ∧ (((scan_code evalPyCode).violations.any mentionsDyn = true
          ∨ 3 < (scan_code evalPyCode).violations.length)
        ∧ (scan_code evalPyCode).risk_level = "high")
    ∧ ((scan_code cleanPyCode).safe = true
        ∧ (scan_code cleanPyCode).risk_level = "low"
        ∧ (scan_code cleanPyCode).violations = []) :=
  ⟨⟨by decide, (c4_security_scan evalPyCode).1 (by decide)⟩,
   ⟨by decide, (c4_security_scan evalPyCode).2.1 (by decide)⟩,
   (c4_security_scan cleanPyCode).2.2 _ rfl (by decide) (by decide) (by decide)⟩

/-- C5 counterexample: `open(f)` scans as non-safe with risk medium — so
it is neither safe nor low-risk — yet `execute_code_gate` still proceeds
to execution, refuting "execution is attempted only when the scan result
is safe or its risk level is low". -/
theorem c5_counterexample :
    (scan_code openPyCode).safe = false
    ∧ (scan_code openPyCode).risk_level = "medium"
    ∧ ¬((scan_code openPyCode).safe = true
        ∨ (scan_code openPyCode).risk_level = "low")
    ∧ execute_code_gate openPyCode
        = ExecDecision.attempted (scan_code openPyCode) := by
  refine ⟨by decide, by decide, by decide, by decide⟩

/-- C5 (amended): execution is blocked exactly when the scan is non-safe
with risk high — high-risk-unsafe code is never executed and the call
returns a failure (`success = false`) carrying the scan result; any other
scan outcome (including non-safe medium risk) proceeds to execution. -/
theorem c5_gate_amended (code : PyCode) :
    ((scan_code code).safe = false → (scan_code code).risk_level = "high" →
      execute_code_gate code = ExecDecision.blocked
        ⟨false, "",
          some ("Code failed security scan: "
            ++ String.intercalate ", " (scan_code code).violations),
          scan_code code⟩)
    ∧ (((scan_code code).safe = true ∨ (scan_code code).risk_level ≠ "high") →
      execute_code_gate code = ExecDecision.attempted (scan_code code)) := by
  constructor
  · intro h1 h2
    unfold execute_code_gate
    simp [h1, h2]
  · intro h
    unfold execute_code_gate
    rcases h with h | h
    · simp [h]
    · simp [h]

/-- Witness for C5: the gate blocks `eval(x)` (unsafe, high risk) and
lets `open(f)` (unsafe but medium risk) through. -/
theorem c5_gate_witness :
    ((scan_code evalPyCode).safe = false
      ∧ (scan_code evalPyCode).risk_level = "high"
      ∧ execute_code_gate evalPyCode = ExecDecision.blocked
          ⟨false, "",
            some ("Code failed security scan: "
              ++ String.intercalate ", " (scan_code evalPyCode).violations),
            scan_code evalPyCode⟩)
    ∧ (((scan_code openPyCode).safe = true
          ∨ (scan_code openPyCode).risk_level ≠ "high")
        ∧ execute_code_gate openPyCode
            = ExecDecision.attempted (scan_code openPyCode)) :=
  ⟨⟨by decide, by decide, (c5_gate_amended evalPyCode).1 (by decide) (by decide)⟩,
   ⟨by decide, (c5_gate_amended openPyCode).2 (by decide)⟩⟩

/-! ## Workflow FSM (`src/workflow.py` and `src/src/core/workflow.py`,
identical state machines `CodeGenerationFSM` / `CodeGenerationWorkflow`) -/

/-- The twelve workflow states (`WorkflowState`). -/
inductive WState where
  | initialized
  | requirementsAnalyzed
  | architectureDesigned
  | promptEngineered
  | codeGenerated
  | codeReviewed
  | securityValidated
  | testsExecuted
  | documentationGenerated
  | qualityApproved
  | completed
  | failed
deriving DecidableEq, Repr, Fintype

/-- The transitions declared on the state machine, in declaration order
(ten forward edges, `fail_from_any`, four retry edges). -/
inductive WEvent where
  | analyzeRequirements
  | designArchitecture
  | engineerPrompt
  | generateCode
  | reviewCode
  | validateSecurity
  | executeTests
  | generateDocumentation
  | approveQuality
  | completeWorkflow
  | failFromAny
  | retryFromReview
  | retryFromSecurity
  | retryFromTests
  | retryFromQuality
deriving DecidableEq, Repr, Fintype

/-- Triggering an event: `some` is the new state, `none` models the
`TransitionNotAllowed` exception the statemachine library raises when the
current state has no matching edge. -/
def fsmStep (st : WState) (e : WEvent) : Option WState :=
  match e, st with
  | .analyzeRequirements, .initialized => some .requirementsAnalyzed
  | .designArchitecture, .requirementsAnalyzed => some .architectureDesigned
  | .engineerPrompt, .architectureDesigned => some .promptEngineered
  | .generateCode, .promptEngineered => some .codeGenerated
  | .reviewCode, .codeGenerated => some .codeReviewed
  | .validateSecurity, .codeReviewed => some .securityValidated
  | .executeTests, .securityValidated => some .testsExecuted
  | .generateDocumentation, .testsExecuted => some .documentationGenerated
  | .approveQuality, .documentationGenerated => some .qualityApproved
  | .completeWorkflow, .qualityApproved => some .completed
  | .failFromAny, s =>
    if s = .completed ∨ s = .failed then none else some .failed
  | .retryFromReview, .codeReviewed => some .promptEngineered
  | .retryFromSecurity, .securityValidated => some .codeGenerated
  | .retryFromTests, .testsExecuted => some .codeGenerated
  | .retryFromQuality, .qualityApproved => some .architectureDesigned
  | _, _ => none

/-- `self.active_workflow.events`: the declaration-order event list the
root manager indexes positionally. -/
def eventsList : List WEvent :=
  [.analyzeRequirements, .designArchitecture, .engineerPrompt, .generateCode,
   .reviewCode, .validateSecurity, .executeTests, .generateDocumentation,
   .approveQuality, .completeWorkflow, .failFromAny, .retryFromReview,
   .retryFromSecurity, .retryFromTests, .retryFromQuality]

/-- `events[n].name` access (only ever reached with `n ≤ 8`; the default
is immaterial). -/
def eventAt (n : Nat) : WEvent := (eventsList[n]?).getD .completeWorkflow

/-- The python attribute name of each event (`event.name`). -/
def eventName : WEvent → String
  | .analyzeRequirements => "analyze_requirements"
  | .designArchitecture => "design_architecture"
  | .engineerPrompt => "engineer_prompt"
  | .generateCode => "generate_code"
  | .reviewCode => "review_code"
  | .validateSecurity => "validate_security"
  | .executeTests => "execute_tests"
  | .generateDocumentation => "generate_documentation"
  | .approveQuality => "approve_quality"
  | .completeWorkflow => "complete_workflow"
  | .failFromAny => "fail_from_any"
  | .retryFromReview => "retry_from_review"
  | .retryFromSecurity => "retry_from_security"
  | .retryFromTests => "retry_from_tests"
  | .retryFromQuality => "retry_from_quality"

/-- `State.id` = `State.value` of each state (the attribute name, which
here equals the enum value string). -/
def stateId : WState → String
  | .initialized => "initialized"
  | .requirementsAnalyzed => "requirements_analyzed"
  | .architectureDesigned => "architecture_designed"
  | .promptEngineered => "prompt_engineered"
  | .codeGenerated => "code_generated"
  | .codeReviewed => "code_reviewed"
  | .securityValidated => "security_validated"
  | .testsExecuted => "tests_executed"
  | .documentationGenerated => "documentation_generated"
  | .qualityApproved => "quality_approved"
  | .completed => "completed"
  | .failed => "failed"

/-! ## Messages as JSON-ish dictionaries -/

/-- A JSON value as far as the dispatcher inspects it: a string, `null`,
or anything else (numbers, maps, lists — only their truthiness and
identity as payloads matter to the dispatch logic). -/
inductive JVal where
  | jstr (s : String)
  | jnull
  | jother
deriving DecidableEq, Repr

/-- A parsed message: a python dict as an association list (unique keys,
first binding wins — matching dict lookup). -/
abbrev Dict := List (String × JVal)

/-- `field in response`. -/
def hasKey (r : Dict) (k : String) : Bool := (r.lookup k).isSome

/-- Python truthiness of `response.get(k)`: absent and `None` and `""`
are falsy. -/
def truthy : Option JVal → Bool
  | none => false
  | some .jnull => false
  | some (.jstr s) => !(s == "")
  | some .jother => true

/-- The string content of a field (non-strings collapse to `""`, which is
never a registered participant name — matching `agents.get(x) = None`). -/
def jstrOf : Option JVal → String
  | some (.jstr s) => s
  | _ => ""

/-! ## Response validation (`validate_agent_response`) -/

/-- `AgentOrchestrator.validate_agent_response` of
`src/src/core/agents.py`: five required fields, and the status value must
be one of success/error/pending (a non-string status is likewise
rejected, since `x not in [...]` then holds). -/
def validate_agent_response_core (r : Dict) : Bool :=
  hasKey r "agent" && hasKey r "action" && hasKey r "status"
    && hasKey r "result" && hasKey r "next_agent"
    && (match r.lookup "status" with
        | some (.jstr s) => s == "success" || s == "error" || s == "pending"
        | _ => false)

/-- `AgentOrchestrator.validate_agent_response` of `src/agents.py`
(root level): only four required keys, and no status-value check. -/
def validate_agent_response_root (r : Dict) : Bool :=
  hasKey r "agent" && hasKey r "action" && hasKey r "status" && hasKey r "result"

/-! ## Participant registry (`AgentOrchestrator`) -/

/-- The nine registered participants (eight pipeline roles plus the
Executor), as built by `_initialize_agents`. -/
def registryAgents : List String :=
  ["SystemArchitect", "PromptEngineer", "CodeGenerator", "CodeReviewer",
   "SecurityValidator", "TestRunner", "DocumentationGenerator", "QualityGate",
   "Executor"]

/-- `AgentOrchestrator.get_agent`: `self.agents.get(agent_name)` — `none`
for an unregistered name, never an exception.  Agents are represented by
their names. -/
def get_agent (name : String) : Option String :=
  if name ∈ registryAgents then some name else none

/-! ## Root dispatcher (`GroupChatWorkflowManager`, `src/workflow.py`) -/

/-- The fixed agent chain of `_get_next_agent_on_success`. -/
def chain : List String :=
  ["SystemArchitect", "PromptEngineer", "CodeGenerator", "CodeReviewer",
   "SecurityValidator", "TestRunner", "DocumentationGenerator", "QualityGate"]

def chainAt (n : Nat) : String := (chain[n]?).getD ""

/-- `WorkflowContext` of `src/workflow.py` (timestamps not modelled). -/
structure RootCtx where
  history : List (String × Dict)
  data : List (String × JVal)
  errors : List (String × Dict)
  retry_count : Nat
deriving DecidableEq, Repr

/-- Python dict assignment `d[k] = v`: replace the binding if present,
else append. -/
def dinsert : List (String × JVal) → String → JVal → List (String × JVal)
  | [], k, v => [(k, v)]
  | (k2, v2) :: rest, k, v =>
    if k2 == k then (k, v) :: rest else (k2, v2) :: dinsert rest k v

/-- `WorkflowContext.update`. -/
def rootUpdate (ctx : RootCtx) (agentName : String) (msg : Dict) : RootCtx :=
  { ctx with
      history := ctx.history ++ [(agentName, msg)],
      data := dinsert ctx.data agentName ((msg.lookup "result").getD .jother) }

/-- `WorkflowContext.add_error`. -/
def rootAddError (ctx : RootCtx) (agentName : String) (msg : Dict) : RootCtx :=
  { ctx with
      errors := ctx.errors ++ [(agentName, msg)],
      retry_count := ctx.retry_count + 1 }

/-- `_get_next_agent_on_success`: look the acting agent up in the chain,
trigger `events[index + 1]` positionally, return the next chain agent.
Result: (returned name, state after, whether `trigger` raised
`TransitionNotAllowed`).  An unknown agent name (`ValueError`) returns
`none` without raising. -/
def nextAgentOnSuccess (st : WState) (lastAgent : String) :
    Option String × WState × Bool :=
  match chain.indexOf? lastAgent with
  | none => (none, st, false)
  | some i =>
    if i + 1 < chain.length then
      match fsmStep st (eventAt (i + 1)) with
      | some st2 => (some (chainAt (i + 1)), st2, false)
      | none => (none, st, true)
    else (none, st, false)

/-- The `state_map` of `_get_agent_for_retry` (also the `retry_mapping`
of `FSMWorkflowOrchestrator._get_retry_agent`, which is the same table),
applied with default `"SystemArchitect"`. -/
def retry_state_map : List (String × String) :=
  [("code_reviewed", "PromptEngineer"), ("security_validated", "CodeGenerator"),
   ("tests_executed", "CodeGenerator"), ("quality_approved", "SystemArchitect")]

def retryAgentFor (st : WState) : String :=
  (retry_state_map.lookup (stateId st)).getD "SystemArchitect"

/-- `has_transition(retry_event)`: whether any declared event carries
that name. -/
def hasTransitionNamed (nm : String) : Bool :=
  eventsList.any (fun e => eventName e == nm)

/-- Trigger an event by name (used behind the `has_transition` guard). -/
def triggerNamed (nm : String) (st : WState) : Option WState :=
  match eventsList.find? (fun e => eventName e == nm) with
  | some e => fsmStep st e
  | none => none

/-- Result of one `_custom_speaker_selection` call: the participant
returned (or `none` for "no next participant"), whether an uncaught
exception escaped, and the state/context afterwards. -/
structure RootSel where
  next : Option String
  raised : Bool
  state : WState
  ctx : RootCtx
deriving DecidableEq, Repr

/-- `GroupChatWorkflowManager._custom_speaker_selection`.  `parsed` is the
newest chat message after `json.loads` (`none` models
`JSONDecodeError`/`KeyError`); `msgCount = len(groupchat.messages)`. -/
def rootSelect (msgCount : Nat) (parsed : Option Dict) (st : WState)
    (ctx : RootCtx) : RootSel :=
  if msgCount ≤ 1 then ⟨get_agent "SystemArchitect", false, st, ctx⟩
  else
    match parsed with
    | none =>
      match fsmStep st .failFromAny with
      | some st2 => ⟨none, false, st2, ctx⟩
      | none => ⟨none, true, st, ctx⟩
    | some msg =>
      if !validate_agent_response_root msg then
        match fsmStep st .failFromAny with
        | some st2 => ⟨none, false, st2, ctx⟩
        | none => ⟨none, true, st, ctx⟩
      else
        let status := msg.lookup "status"
        let agentName := jstrOf (msg.lookup "agent")
        if status == some (.jstr "success") then
          let ctx2 := rootUpdate ctx agentName msg
          match nextAgentOnSuccess st agentName with
          | (nxt, st2, raised) =>
            if raised then ⟨none, true, st2, ctx2⟩
            else
              match nxt with
              | some nm => ⟨get_agent nm, false, st2, ctx2⟩
              | none =>
                match fsmStep st2 .completeWorkflow with
                | some st3 => ⟨none, false, st3, ctx2⟩
                | none => ⟨none, true, st2, ctx2⟩
        else if status == some (.jstr "error") then
          let ctx2 := rootAddError ctx agentName msg
          if 3 < ctx2.retry_count then
            match fsmStep st .failFromAny with
            | some st2 => ⟨none, false, st2, ctx2⟩
            | none => ⟨none, true, st, ctx2⟩
          else
            let retryEvent := "retry_from_" ++ stateId st
            let st2 :=
              if hasTransitionNamed retryEvent then
                (triggerNamed retryEvent st).getD st
              else st
            ⟨get_agent (retryAgentFor st), false, st2, ctx2⟩
        else ⟨none, false, st, ctx⟩

/-! ## Packaged dispatcher (`FSMWorkflowOrchestrator`,
`src/src/core/workflow.py`) -/

/-- The `transitions` dictionary of `_progress_workflow` (note:
`design_architecture` and `complete_workflow` are bound to no agent). -/
def core_transitions (sp : String) : Option WEvent :=
  if sp == "SystemArchitect" then some .analyzeRequirements
  else if sp == "PromptEngineer" then some .engineerPrompt
  else if sp == "CodeGenerator" then some .generateCode
  else if sp == "CodeReviewer" then some .reviewCode
  else if sp == "SecurityValidator" then some .validateSecurity
  else if sp == "TestRunner" then some .executeTests
  else if sp == "DocumentationGenerator" then some .generateDocumentation
  else if sp == "QualityGate" then some .approveQuality
  else none

/-- `_progress_workflow`: the transition for the speaking agent is
triggered; the `except Exception` handler swallows an ineligible
transition, leaving the state unchanged. -/
def coreProgress (st : WState) (sp : String) : WState :=
  match core_transitions sp with
  | some e => (fsmStep st e).getD st
  | none => st

/-- The `state_to_agent` dictionary of `_get_next_agent_by_state`. -/
def state_to_agent : WState → Option String
  | .initialized => some "SystemArchitect"
  | .requirementsAnalyzed => some "SystemArchitect"
  | .architectureDesigned => some "PromptEngineer"
  | .promptEngineered => some "CodeGenerator"
  | .codeGenerated => some "CodeReviewer"
  | .codeReviewed => some "SecurityValidator"
  | .securityValidated => some "TestRunner"
  | .testsExecuted => some "DocumentationGenerator"
  | .documentationGenerated => some "QualityGate"
  | .qualityApproved => some "Executor"
  | _ => none

/-- `_get_next_agent_by_state`: map lookup then registry lookup. -/
def nextAgentByState (st : WState) : Option String :=
  match state_to_agent st with
  | some nm => get_agent nm
  | none => none

/-- `WorkflowContext` of the packaged orchestrator, restricted to the
fields the dispatcher mutates. -/
structure CoreCtx where
  errors : List Dict
  retry_count : Nat
deriving DecidableEq, Repr

/-- Result of one `custom_speaker_selection` call of the packaged
orchestrator. -/
structure CoreSel where
  next : Option String
  state : WState
  ctx : CoreCtx
  raised : Bool
deriving DecidableEq, Repr

/-- `FSMWorkflowOrchestrator.custom_speaker_selection`.  The workflow-id
bookkeeping is elided (the active run is passed directly) and
`last_speaker` is assumed present, with name `speakerName`.  A
`JSONDecodeError` on the newest message (`parsed = none`) is caught and
merely returns no participant — no Failed transition. -/
def coreSelect (msgCount : Nat) (parsed : Option Dict) (speakerName : String)
    (st : WState) (ctx : CoreCtx) : CoreSel :=
  if msgCount = 0 then ⟨get_agent "SystemArchitect", st, ctx, false⟩
  else
    match parsed with
    | none => ⟨none, st, ctx, false⟩
    | some msg =>
      let nextAgentVal := msg.lookup "next_agent"
      let status := msg.lookup "status"
      if status == some (.jstr "error") then
        let ctx2 : CoreCtx := ⟨ctx.errors ++ [msg], ctx.retry_count + 1⟩
        if 3 < ctx2.retry_count then
          match fsmStep st .failFromAny with
          | some st2 => ⟨none, st2, ctx2, false⟩
          | none => ⟨none, st, ctx2, true⟩
        else ⟨get_agent (retryAgentFor st), st, ctx2, false⟩
      else
        let st2 :=
          if status == some (.jstr "success") then coreProgress st speakerName
          else st
        if truthy nextAgentVal then ⟨get_agent (jstrOf nextAgentVal), st2, ctx, false⟩
        else ⟨nextAgentByState st2, st2, ctx, false⟩

/-- Fold the packaged dispatcher over a list of (speaker, message)
turns. -/
def runCore : List (String × Dict) → WState × CoreCtx → WState × CoreCtx
  | [], sc => sc
  | (sp, msg) :: rest, (st, ctx) =>
    let out := coreSelect 1 (some msg) sp st ctx
    runCore rest (out.state, out.ctx)

/-- A conforming success message from `agent` pointing at `nxt`. -/
def successMsg (agent : String) (nxt : JVal) : Dict :=
  [("agent", .jstr agent), ("action", .jstr "done"),
   ("status", .jstr "success"), ("result", .jother), ("next_agent", nxt)]

/-- Scenario A of the spec: the eight pipeline agents answer `success` in
stage order (the ninth step, completion, would follow the QualityGate
turn). -/
def scenarioA : List (String × Dict) :=
  [("SystemArchitect", successMsg "SystemArchitect" (.jstr "PromptEngineer")),
   ("PromptEngineer", successMsg "PromptEngineer" (.jstr "CodeGenerator")),
   ("CodeGenerator", successMsg "CodeGenerator" (.jstr "CodeReviewer")),
   ("CodeReviewer", successMsg "CodeReviewer" (.jstr "SecurityValidator")),
   ("SecurityValidator", successMsg "SecurityValidator" (.jstr "TestRunner")),
   ("TestRunner", successMsg "TestRunner" (.jstr "DocumentationGenerator")),
   ("DocumentationGenerator",
      successMsg "DocumentationGenerator" (.jstr "QualityGate")),
   ("QualityGate", successMsg "QualityGate" .jnull)]

/-! ## FSM facts -/

theorem fsmStep_fail : ∀ st : WState, st ≠ WState.completed → st ≠ WState.failed →
    fsmStep st WEvent.failFromAny = some WState.failed := by decide

theorem fsmStep_failed_none : ∀ e : WEvent, fsmStep WState.failed e = none := by decide

/-- The retry-event name computed by `_get_agent_for_retry`
(`"retry_from_" + state id`) matches no declared event for any state, so
`has_transition` is always false there and no retry transition ever
fires. -/
theorem hasTransition_retry_false :
    ∀ st : WState, hasTransitionNamed ("retry_from_" ++ stateId st) = false := by
  decide

theorem fsmStep_getD_nonterminal :
    ∀ (st : WState) (e : WEvent), e ≠ WEvent.completeWorkflow →
      e ≠ WEvent.failFromAny → st ≠ WState.completed → st ≠ WState.failed →
      ((fsmStep st e).getD st ≠ WState.completed
        ∧ (fsmStep st e).getD st ≠ WState.failed) := by decide

theorem core_transitions_forward (sp : String) (e : WEvent)
    (h : core_transitions sp = some e) :
    e ≠ WEvent.completeWorkflow ∧ e ≠ WEvent.failFromAny := by
  unfold core_transitions at h
  split_ifs at h <;> simp only [Option.some.injEq] at h <;>
    first
    | (subst h; exact ⟨by decide, by decide⟩)
    | cases h

theorem coreProgress_nonterminal (sp : String) (st : WState)
    (h1 : st ≠ WState.completed) (h2 : st ≠ WState.failed) :
    coreProgress st sp ≠ WState.completed ∧ coreProgress st sp ≠ WState.failed := by
  unfold coreProgress
  cases hct : core_transitions sp with
  | none => exact ⟨h1, h2⟩
  | some e =>
    obtain ⟨he1, he2⟩ := core_transitions_forward sp e hct
    exact fsmStep_getD_nonterminal st e he1 he2 h1 h2

/-! ## Dispatcher characterizations on the error path -/

theorem rootSelect_error_eq (st : WState) (ctx : RootCtx) (msg : Dict) (n : Nat)
    (hn : 2 ≤ n) (h1 : st ≠ WState.completed) (h2 : st ≠ WState.failed)
    (hstat : msg.lookup "status" = some (JVal.jstr "error"))
    (hval : validate_agent_response_root msg = true) :
    rootSelect n (some msg) st ctx =
      if 3 < ctx.retry_count + 1 then
        ⟨none, false, WState.failed,
          rootAddError ctx (jstrOf (msg.lookup "agent")) msg⟩
      else
        ⟨get_agent (retryAgentFor st), false, st,
          rootAddError ctx (jstrOf (msg.lookup "agent")) msg⟩ := by
  have hn' : ¬ n ≤ 1 := by omega
  have hsucc : (some (JVal.jstr "error") == some (JVal.jstr "success")) = false := by
    decide
  have herr : (some (JVal.jstr "error") == some (JVal.jstr "error")) = true := by
    decide
  unfold rootSelect
  rw [if_neg hn']
  simp only [hval, Bool.not_true, Bool.false_eq_true, if_false, hstat, hsucc,
    herr, if_true, hasTransition_retry_false st, rootAddError]
  split <;> simp [fsmStep_fail st h1 h2]

theorem coreSelect_error_eq (st : WState) (sp : String) (cctx : CoreCtx)
    (msg : Dict) (n : Nat) (hn : n ≠ 0)
    (h1 : st ≠ WState.completed) (h2 : st ≠ WState.failed)
    (hstat : msg.lookup "status" = some (JVal.jstr "error")) :
    coreSelect n (some msg) sp st cctx =
      if 3 < cctx.retry_count + 1 then
        ⟨none, WState.failed, ⟨cctx.errors ++ [msg], cctx.retry_count + 1⟩, false⟩
      else
        ⟨get_agent (retryAgentFor st), st,
          ⟨cctx.errors ++ [msg], cctx.retry_count + 1⟩, false⟩ := by
  have herr : (some (JVal.jstr "error") == some (JVal.jstr "error")) = true := by
    decide
  unfold coreSelect
  rw [if_neg hn]
  simp only [hstat, herr, if_true]
  split <;> simp [fsmStep_fail st h1 h2]

/-! ## Claim theorems for the workflow engine -/

/-- C1 (evaluation of the code at the failing scenario): running scenario
A — the pipeline agents answering `success` in stage order from
Initialized — the packaged orchestrator ends in `requirements_analyzed`
(no agent ever triggers `design_architecture`, and `complete_workflow` is
never invoked), not Completed; and the root manager raises
`TransitionNotAllowed` on the very first success, because its positional
event lookup selects `events[1] = design_architecture` from
`initialized`. -/
theorem c1_scenarioA_evaluation :
    (runCore scenarioA (WState.initialized, ⟨[], 0⟩)).1 = WState.requirementsAnalyzed
    ∧ (runCore scenarioA (WState.initialized, ⟨[], 0⟩)).1 ≠ WState.completed
    ∧ (runCore scenarioA (WState.initialized, ⟨[], 0⟩)).2.retry_count = 0
    ∧ (rootSelect 2 (some (successMsg "SystemArchitect" (.jstr "PromptEngineer")))
        WState.initialized ⟨[], [], [], 0⟩).raised = true
    ∧ (rootSelect 2 (some (successMsg "SystemArchitect" (.jstr "PromptEngineer")))
        WState.initialized ⟨[], [], [], 0⟩).state = WState.initialized
    ∧ eventAt 1 = WEvent.designArchitecture
    ∧ fsmStep WState.initialized WEvent.designArchitecture = none := by
  refine ⟨by decide, by decide, by decide, by decide, by decide, by decide,
    by decide⟩

/-- C2: processing a conforming `error` result records the error and
increments the retry counter in both dispatchers; as soon as the counter
exceeds 3 the run transitions to Failed with no next participant; and
Failed is terminal (no event is enabled from it). -/
theorem c2_error_retry_failed (st : WState) (ctx : RootCtx) (cctx : CoreCtx)
    (msg : Dict) (sp : String) (n : Nat)
    (hn : 2 ≤ n) (h1 : st ≠ WState.completed) (h2 : st ≠ WState.failed)
    (hstat : msg.lookup "status" = some (JVal.jstr "error"))
    (hval : validate_agent_response_root msg = true) :
    ((rootSelect n (some msg) st ctx).ctx.retry_count = ctx.retry_count + 1
      ∧ (rootSelect n (some msg) st ctx).ctx.errors
          = ctx.errors ++ [(jstrOf (msg.lookup "agent"), msg)]
      ∧ (3 < ctx.retry_count + 1 →
          (rootSelect n (some msg) st ctx).state = WState.failed
            ∧ (rootSelect n (some msg) st ctx).next = none))
    ∧ ((coreSelect n (some msg) sp st cctx).ctx.retry_count = cctx.retry_count + 1
      ∧ (coreSelect n (some msg) sp st cctx).ctx.errors = cctx.errors ++ [msg]
      ∧ (3 < cctx.retry_count + 1 →
          (coreSelect n (some msg) sp st cctx).state = WState.failed
            ∧ (coreSelect n (some msg) sp st cctx).next = none))
    ∧ (∀ e, fsmStep WState.failed e = none) := by
  have hn0 : n ≠ 0 := by omega
  rw [rootSelect_error_eq st ctx msg n hn h1 h2 hstat hval,
    coreSelect_error_eq st sp cctx msg n hn0 h1 h2 hstat]
  refine ⟨⟨?_, ?_, ?_⟩, ⟨?_, ?_, ?_⟩, fsmStep_failed_none⟩
  · split <;> rfl
  · split <;> rfl
  · intro hr
    rw [if_pos hr]
    exact ⟨rfl, rfl⟩
  · split <;> rfl
  · split <;> rfl
  · intro hr
    rw [if_pos hr]
    exact ⟨rfl, rfl⟩

/-- A conforming error message used as concrete witness input. -/
def errMsg : Dict :=
  [("agent", .jstr "SecurityValidator"), ("action", .jstr "scan"),
   ("status", .jstr "error"), ("result", .jother), ("next_agent", .jnull)]

/-- Witness for C2: a fourth error in state `code_reviewed` drives both
dispatchers to Failed. -/
theorem c2_error_retry_failed_witness :
    ((rootSelect 2 (some errMsg) WState.codeReviewed ⟨[], [], [], 3⟩).ctx.retry_count
          = 3 + 1
      ∧ (rootSelect 2 (some errMsg) WState.codeReviewed ⟨[], [], [], 3⟩).state
          = WState.failed
      ∧ (rootSelect 2 (some errMsg) WState.codeReviewed ⟨[], [], [], 3⟩).next = none)
    ∧ ((coreSelect 2 (some errMsg) "SecurityValidator" WState.codeReviewed
          ⟨[], 3⟩).ctx.retry_count = 3 + 1
      ∧ (coreSelect 2 (some errMsg) "SecurityValidator" WState.codeReviewed
          ⟨[], 3⟩).state = WState.failed
      ∧ (coreSelect 2 (some errMsg) "SecurityValidator" WState.codeReviewed
          ⟨[], 3⟩).next = none) := by
  have h := c2_error_retry_failed WState.codeReviewed ⟨[], [], [], 3⟩ ⟨[], 3⟩
    errMsg "SecurityValidator" 2 (by decide) (by decide) (by decide)
    (by decide) (by decide)
  have hr : 3 < 3 + 1 := by decide
  exact ⟨⟨h.1.1, (h.1.2.2 hr).1, (h.1.2.2 hr).2⟩,
    ⟨h.2.1.1, (h.2.1.2.2 hr).1, (h.2.1.2.2 hr).2⟩⟩

/-- C3 counterexample: a malformed (unparseable) newest message handed to
the packaged dispatcher (`FSMWorkflowOrchestrator.custom_speaker_selection`,
one of the claim's two cited dispatchers) returns no participant but
leaves the run in `initialized` — no transition to Failed is forced. -/
theorem c3_counterexample :
    (coreSelect 5 none "SystemArchitect" WState.initialized ⟨[], 0⟩).next = none
    ∧ (coreSelect 5 none "SystemArchitect" WState.initialized ⟨[], 0⟩).state
        = WState.initialized
    ∧ WState.initialized ≠ WState.failed
    ∧ (coreSelect 5 none "SystemArchitect" WState.initialized
        ⟨[], 0⟩).ctx.retry_count = 0 := by
  refine ⟨by decide, by decide, by decide, by decide⟩

/-- C3 (amended): in the root dispatcher
(`GroupChatWorkflowManager._custom_speaker_selection`) a malformed newest
message — unparseable, or failing response validation — forces Failed,
returns no participant and consumes no retry; the packaged dispatcher
instead returns no participant with state and context unchanged (no
Failed transition) on a parse failure. -/
theorem c3_malformed_amended (st : WState) (ctx : RootCtx) (n : Nat)
    (hn : 2 ≤ n) (h1 : st ≠ WState.completed) (h2 : st ≠ WState.failed) :
    rootSelect n none st ctx = ⟨none, false, WState.failed, ctx⟩
    ∧ (∀ msg, validate_agent_response_root msg = false →
        rootSelect n (some msg) st ctx = ⟨none, false, WState.failed, ctx⟩)
    ∧ (∀ (cctx : CoreCtx) (sp : String),
        coreSelect n none sp st cctx = ⟨none, st, cctx, false⟩) := by
  have hn' : ¬ n ≤ 1 := by omega
  have hn0 : n ≠ 0 := by omega
  refine ⟨?_, ?_, ?_⟩
  · unfold rootSelect
    rw [if_neg hn']
    simp [fsmStep_fail st h1 h2]
  · intro msg hv
    unfold rootSelect
    rw [if_neg hn']
    simp [hv, fsmStep_fail st h1 h2]
  · intro cctx sp
    unfold coreSelect
    rw [if_neg hn0]

/-- Witness for C3 (amended) at `code_generated`. -/
theorem c3_malformed_witness :
    rootSelect 2 none WState.codeGenerated ⟨[], [], [], 0⟩
        = ⟨none, false, WState.failed, ⟨[], [], [], 0⟩⟩
    ∧ coreSelect 2 none "CodeReviewer" WState.codeGenerated ⟨[], 0⟩
        = ⟨none, WState.codeGenerated, ⟨[], 0⟩, false⟩ :=
  ⟨(c3_malformed_amended WState.codeGenerated ⟨[], [], [], 0⟩ 2 (by decide)
      (by decide) (by decide)).1,
   (c3_malformed_amended WState.codeGenerated ⟨[], [], [], 0⟩ 2 (by decide)
      (by decide) (by decide)).2.2 ⟨[], 0⟩ "CodeReviewer"⟩

/-- A message missing `next_agent` and carrying status `bogus`. -/
def badStatusMsg : Dict :=
  [("agent", .jstr "X"), ("action", .jstr "a"), ("status", .jstr "bogus"),
   ("result", .jother)]

/-- C9 counterexample: the root-level validator
(`src/agents.py`, `validate_agent_response`) accepts a message that lacks
the `next_agent` field and carries a status outside
success/error/pending. -/
theorem c9_counterexample :
    validate_agent_response_root badStatusMsg = true
    ∧ (badStatusMsg.lookup "next_agent").isSome = false
    ∧ badStatusMsg.lookup "status" = some (JVal.jstr "bogus") := by
  refine ⟨by decide, by decide, by decide⟩

/-- C9 (amended): the packaged validator
(`src/src/core/agents.py`) accepts exactly the messages with all five
fields agent/action/status/result/next_agent present and a string status
among success/error/pending; the root-level validator
(`src/agents.py`) only requires the four fields agent/action/status/result
and performs no status check. -/
theorem c9_validation_amended (r : Dict) :
    (validate_agent_response_core r = true ↔
      ((r.lookup "agent").isSome = true ∧ (r.lookup "action").isSome = true
        ∧ (r.lookup "status").isSome = true ∧ (r.lookup "result").isSome = true
        ∧ (r.lookup "next_agent").isSome = true
        ∧ ∃ s, r.lookup "status" = some (JVal.jstr s)
            ∧ (s = "success" ∨ s = "error" ∨ s = "pending")))
    ∧ (validate_agent_response_root r = true ↔
      ((r.lookup "agent").isSome = true ∧ (r.lookup "action").isSome = true
        ∧ (r.lookup "status").isSome = true
        ∧ (r.lookup "result").isSome = true)) := by
  constructor
  · unfold validate_agent_response_core hasKey
    cases hs : r.lookup "status" with
    | none => simp [hs]
    | some v =>
      cases v with
      | jstr s => simp [hs]; tauto
      | jnull => simp [hs]
      | jother => simp [hs]
  · unfold validate_agent_response_root hasKey
    simp [and_assoc]

/-- C10: looking up an unregistered participant yields `none` (no
exception), so a conforming `success` result whose `next_agent` names an
unknown participant makes the packaged dispatcher return no participant,
with the run left in a non-terminal state (neither Completed nor Failed),
no error recorded and the retry counter untouched. -/
theorem c10_unknown_next_agent (st : WState) (cctx : CoreCtx) (msg : Dict)
    (sp nm : String) (n : Nat) (hn : n ≠ 0)
    (hstat : msg.lookup "status" = some (JVal.jstr "success"))
    (hnext : msg.lookup "next_agent" = some (JVal.jstr nm))
    (hnm : nm ∉ registryAgents) (hne : nm ≠ "")
    (h1 : st ≠ WState.completed) (h2 : st ≠ WState.failed) :
    get_agent nm = none
    ∧ (coreSelect n (some msg) sp st cctx).next = none
    ∧ ((coreSelect n (some msg) sp st cctx).state ≠ WState.completed
        ∧ (coreSelect n (some msg) sp st cctx).state ≠ WState.failed)
    ∧ (coreSelect n (some msg) sp st cctx).ctx = cctx
    ∧ (coreSelect n (some msg) sp st cctx).raised = false := by
  have hga : get_agent nm = none := by
    unfold get_agent
    simp [hnm]
  have hsucc : (some (JVal.jstr "success") == some (JVal.jstr "success")) = true := by
    decide
  have herr : (some (JVal.jstr "success") == some (JVal.jstr "error")) = false := by
    decide
  have htr : truthy (some (JVal.jstr nm)) = true := by
    simp [truthy, hne]
  have hsel : coreSelect n (some msg) sp st cctx
      = ⟨get_agent nm, coreProgress st sp, cctx, false⟩ := by
    unfold coreSelect
    rw [if_neg hn]
    simp only [hstat, hnext, herr, Bool.false_eq_true, if_false, hsucc, if_true,
      htr, jstrOf]
  rw [hsel]
  exact ⟨hga, hga, coreProgress_nonterminal sp st h1 h2, rfl, rfl⟩

/-- Witness for C10: a success result pointing at the unregistered
participant "GhostAgent" from `initialized`. -/
theorem c10_unknown_next_agent_witness :
    get_agent "GhostAgent" = none
    ∧ (coreSelect 1 (some (successMsg "SystemArchitect" (.jstr "GhostAgent")))
        "SystemArchitect" WState.initialized ⟨[], 0⟩).next = none
    ∧ ((coreSelect 1 (some (successMsg "SystemArchitect" (.jstr "GhostAgent")))
          "SystemArchitect" WState.initialized ⟨[], 0⟩).state ≠ WState.completed
        ∧ (coreSelect 1 (some (successMsg "SystemArchitect" (.jstr "GhostAgent")))
            "SystemArchitect" WState.initialized ⟨[], 0⟩).state ≠ WState.failed)
    ∧ (coreSelect 1 (some (successMsg "SystemArchitect" (.jstr "GhostAgent")))
        "SystemArchitect" WState.initialized ⟨[], 0⟩).ctx = ⟨[], 0⟩
    ∧ (coreSelect 1 (some (successMsg "SystemArchitect" (.jstr "GhostAgent")))
        "SystemArchitect" WState.initialized ⟨[], 0⟩).raised = false :=
  c10_unknown_next_agent WState.initialized ⟨[], 0⟩
    (successMsg "SystemArchitect" (.jstr "GhostAgent")) "SystemArchitect"
    "GhostAgent" 1 (by decide) (by decide) (by decide) (by decide) (by decide)
    (by decide) (by decide)

end CodeGen
